import Mathlib

/-!
Shallow embedding of the remote-job polling and lifecycle-tracking flow of
src/video.py: the functions upload_video_to_gemini and get_gemini_response,
and the "Clear Chat & Remove Video" sidebar handler (the release operation).
The external generative-AI backend is modelled as explicit parameters: the
outcome of the initial upload call, a trace of status-poll outcomes, the
outcome of the generate call, and the outcomes of the get_file / delete_file
calls used by the release handler.
-/

namespace GeminiModel

/-- Modelled from the spec: the external backend contract (spec section 6)
reports one of Processing, Ready (the ACTIVE state of the service) or Failed
for an uploaded file; the source compares the reported state name against the
strings PROCESSING, FAILED and ACTIVE. -/
inductive FileState where
  | PROCESSING
  | ACTIVE
  | FAILED
deriving DecidableEq, Repr

/-- A remote file handle as returned by the upload service: its server-side
name and its most recently reported state (video_file in src/video.py). -/
structure RemoteFile where
  name : String
  state : FileState
deriving DecidableEq, Repr

/-- The distinct error paths of upload_video_to_gemini, each marked by its own
st.error message in the source: the timeout exit (line 62), the FAILED exit
(line 70) and the generic exception handler (line 79). -/
inductive UploadErr where
  | timeout
  | remoteFailed
  | exception
deriving DecidableEq, Repr

/-- Outcome of the polling while-loop of upload_video_to_gemini
(src/video.py lines 60-67): timed out, an exception raised by a status poll,
or loop exit with the last reported state. In each case the number of
genai.get_file calls issued is recorded. -/
inductive PollOutcome where
  | timeout (polls : Nat)
  | exn (polls : Nat) (msg : String)
  | done (st : FileState) (polls : Nat)
deriving DecidableEq, Repr

/-- The polling while-loop of upload_video_to_gemini (src/video.py lines
60-67).  `trace i` is the outcome of the i-th genai.get_file call.  Elapsed
time is the accumulated sleep time: each iteration first re-checks the while
condition (state = PROCESSING), then checks `elapsed > maxWait` (strict, as
in the source), then sleeps `interval` seconds and issues the next poll.
`fuel` bounds the number of iterations; `none` means fuel ran out before the
loop terminated. -/
def pollLoop (trace : Nat → Except String FileState) (interval maxWait : Nat) :
    Nat → Nat → Nat → FileState → Option PollOutcome
  | 0, _, _, _ => none
  | fuel + 1, elapsed, polls, st =>
    if st = .PROCESSING then
      if maxWait < elapsed then
        some (.timeout polls)
      else
        match trace polls with
        | .error e => some (.exn polls e)
        | .ok st2 => pollLoop trace interval maxWait fuel (elapsed + interval) (polls + 1) st2
    else
      some (.done st polls)

/-- Observable outcome of one run of upload_video_to_gemini: the returned
value (the remote file or None), whether the temporary local file was created
and whether it was unlinked before returning, the number of status polls
issued, whether any remote delete was requested (the source never requests
one in this function), and which error path fired (matching the st.error
message emitted), if any. -/
structure UploadResult where
  result : Option RemoteFile
  tmpCreated : Bool
  tmpReleased : Bool
  polls : Nat
  deleteIssued : Bool
  errorKind : Option UploadErr
deriving DecidableEq, Repr

/-- upload_video_to_gemini (src/video.py lines 38-82).  `uploadedFile` is the
value of the uploaded_file argument (None or its name); `uploadStep` is the
outcome of the genai.upload_file call; `trace` gives the outcomes of the
successive genai.get_file polls.  On a None argument the function returns
None before any temporary file is created.  Otherwise the temporary file is
created, and every exit path unlinks it: the timeout exit (line 63), the
FAILED exit (line 71), the success exit (line 74) and the exception handler
(lines 80-81).  Exceptions raised by upload_file or by a poll both land in
the same handler and return None. -/
def upload_video_to_gemini (uploadedFile : Option String)
    (uploadStep : Except String RemoteFile)
    (trace : Nat → Except String FileState)
    (interval maxWait fuel : Nat) : Option UploadResult :=
  match uploadedFile with
  | none => some ⟨none, false, false, 0, false, none⟩
  | some _ =>
    match uploadStep with
    | .error _ => some ⟨none, true, true, 0, false, some .exception⟩
    | .ok vf =>
      match pollLoop trace interval maxWait fuel 0 0 vf.state with
      | none => none
      | some (.timeout p) => some ⟨none, true, true, p, false, some .timeout⟩
      | some (.exn p _) => some ⟨none, true, true, p, false, some .exception⟩
      | some (.done st p) =>
        if st = .FAILED then
          some ⟨none, true, true, p, false, some .remoteFailed⟩
        else
          some ⟨some ⟨vf.name, st⟩, true, true, p, false, none⟩

/-- A response of the generate_content call: its list of candidate texts
(response.candidates in the source). -/
structure GenResponse where
  candidates : List String
deriving DecidableEq, Repr

/-- response.text: the text carried by the candidates of a response. -/
def GenResponse.text (r : GenResponse) : String :=
  String.join r.candidates

/-- The string returned by get_gemini_response when video_file_obj is falsy
(src/video.py line 88). -/
def noVideoMsg : String := "Please upload a video first."

/-- The string returned by get_gemini_response when response.candidates is
empty (src/video.py line 123). -/
def noCandidatesMsg : String :=
  "The model could not generate a response. This might be due to safety filters or limitations. Please try a different question or video."

/-- The string returned by the exception handler of get_gemini_response
(src/video.py line 141). -/
def genErrorMsg : String :=
  "Sorry, I encountered an error trying to analyze the video with your question."

/-- Observable outcome of get_gemini_response: the returned string and
whether the model.generate_content network call was issued. -/
structure QueryResult where
  text : String
  networkCalled : Bool
deriving DecidableEq, Repr

/-- get_gemini_response (src/video.py lines 85-141).  The only guard before
the network call is `if not video_file_obj` (line 87): the state of the asset
is never inspected.  `backend` is the outcome of the model.generate_content
call: an exception, or a response whose candidates may be empty. -/
def get_gemini_response (videoFileObj : Option RemoteFile) (userPrompt : String)
    (backend : Except String GenResponse) : QueryResult :=
  match videoFileObj, userPrompt with
  | none, _ => ⟨noVideoMsg, false⟩
  | some _, _ =>
    match backend with
    | .error _ => ⟨genErrorMsg, true⟩
    | .ok resp =>
      if resp.candidates.isEmpty then
        ⟨noCandidatesMsg, true⟩
      else
        ⟨resp.text, true⟩

/-- The session-state fields touched by the Clear Chat & Remove Video handler
(st.session_state in src/video.py). -/
structure Session where
  messages : List String
  uploadedFileName : Option String
  uploadedVideoFileObj : Option RemoteFile
  uploadKey : Nat
deriving DecidableEq, Repr

/-- Observable outcome of the Clear Chat & Remove Video handler: the updated
session, whether a genai.delete_file request was issued, and whether a
sidebar warning was emitted (the handler catches every exception, so it never
raises). -/
structure ReleaseOutcome where
  session : Session
  deleteIssued : Bool
  warned : Bool
deriving DecidableEq, Repr

/-- The Clear Chat & Remove Video handler (src/video.py lines 225-242), the
release operation.  When a file object is held, the handler first asks the
service for the current state (`getFileResp` is the genai.get_file outcome);
only when the reported state is ACTIVE does it issue genai.delete_file
(`deleteResp` is that outcome), and any exception from either call is caught
and turned into a sidebar warning.  In every case messages are cleared, the
file name and the file object are set to None, and upload_key is
incremented. -/
def clearChatAndRemoveVideo (s : Session)
    (getFileResp : Except String RemoteFile)
    (deleteResp : Except String Unit) : ReleaseOutcome :=
  match s.uploadedVideoFileObj with
  | none => ⟨⟨[], none, none, s.uploadKey + 1⟩, false, false⟩
  | some _ =>
    match getFileResp with
    | .error _ => ⟨⟨[], none, none, s.uploadKey + 1⟩, false, true⟩
    | .ok f =>
      if f.state = .ACTIVE then
        match deleteResp with
        | .error _ => ⟨⟨[], none, none, s.uploadKey + 1⟩, true, true⟩
        | .ok _ => ⟨⟨[], none, none, s.uploadKey + 1⟩, true, false⟩
      else
        ⟨⟨[], none, none, s.uploadKey + 1⟩, false, true⟩

/-- The polling loop only exits through `done` when the last reported state
is no longer PROCESSING (the while condition). -/
theorem pollLoop_done_not_processing (trace : Nat → Except String FileState)
    (interval maxWait : Nat) :
    ∀ (fuel elapsed polls : Nat) (st st' : FileState) (p' : Nat),
      pollLoop trace interval maxWait fuel elapsed polls st = some (.done st' p') →
      st' ≠ .PROCESSING := by
  intro fuel
  induction fuel with
  | zero => intro elapsed polls st st' p' h; simp [pollLoop] at h
  | succ n ih =>
    intro elapsed polls st st' p' h
    rw [pollLoop] at h
    by_cases hst : st = .PROCESSING
    · rw [if_pos hst] at h
      by_cases hto : maxWait < elapsed
      · rw [if_pos hto] at h
        simp at h
      · rw [if_neg hto] at h
        cases htr : trace polls with
        | error e => rw [htr] at h; simp at h
        | ok st2 => rw [htr] at h; exact ih _ _ _ _ _ h
    · rw [if_neg hst] at h
      obtain ⟨h1, h2⟩ := PollOutcome.done.inj (Option.some.inj h)
      exact h1 ▸ hst

/-- C1: whenever upload_video_to_gemini returns a remote file (non-None), the
state most recently reported by the service for that file is ACTIVE (Ready):
the loop exits only when the state is not PROCESSING, and a FAILED state is
turned into a None return before the success exit. -/
theorem c1_success_implies_ready (uploadedFile : Option String)
    (uploadStep : Except String RemoteFile)
    (trace : Nat → Except String FileState) (interval maxWait fuel : Nat)
    (o : UploadResult) (f : RemoteFile)
    (ho : upload_video_to_gemini uploadedFile uploadStep trace interval maxWait fuel = some o)
    (hf : o.result = some f) :
    f.state = .ACTIVE := by
  unfold upload_video_to_gemini at ho
  split at ho
  · cases Option.some.inj ho; simp at hf
  · split at ho
    · cases Option.some.inj ho; simp at hf
    · split at ho
      · exact Option.noConfusion ho
      · cases Option.some.inj ho; simp at hf
      · cases Option.some.inj ho; simp at hf
      · next st p hpo =>
        split at ho
        · cases Option.some.inj ho; simp at hf
        · next hfl =>
          cases Option.some.inj ho
          cases Option.some.inj hf
          have hnp : st ≠ .PROCESSING :=
            pollLoop_done_not_processing trace interval maxWait fuel 0 0 _ st p hpo
          cases st with
          | PROCESSING => exact absurd rfl hnp
          | ACTIVE => rfl
          | FAILED => exact absurd rfl hfl

/-- Witness for C1: a concrete run whose upload response is already ACTIVE
returns that file, and the theorem yields that its state is ACTIVE. -/
theorem c1_success_implies_ready_witness :
    (RemoteFile.mk "files/v" .ACTIVE).state = .ACTIVE :=
  c1_success_implies_ready (some "v") (.ok ⟨"files/v", .ACTIVE⟩)
    (fun _ => .ok .ACTIVE) 5 300 3
    ⟨some ⟨"files/v", .ACTIVE⟩, true, true, 0, false, none⟩
    ⟨"files/v", .ACTIVE⟩ rfl rfl

/-- C4: whenever a run of upload_video_to_gemini ends on the timeout path,
the operation fails (returns None after the timeout st.error), no remote
delete or cancel request is issued, and the temporary local file is unlinked
before returning. -/
theorem c4_timeout_behaviour (uploadedFile : Option String)
    (uploadStep : Except String RemoteFile)
    (trace : Nat → Except String FileState) (interval maxWait fuel : Nat)
    (o : UploadResult)
    (ho : upload_video_to_gemini uploadedFile uploadStep trace interval maxWait fuel = some o)
    (ht : o.errorKind = some .timeout) :
    o.result = none ∧ o.tmpReleased = true ∧ o.deleteIssued = false := by
  unfold upload_video_to_gemini at ho
  split at ho
  · cases Option.some.inj ho; simp at ht
  · split at ho
    · cases Option.some.inj ho; simp at ht
    · split at ho
      · exact Option.noConfusion ho
      · cases Option.some.inj ho; exact ⟨rfl, rfl, rfl⟩
      · cases Option.some.inj ho; simp at ht
      · split at ho
        · cases Option.some.inj ho; simp at ht
        · cases Option.some.inj ho; simp at ht

/-- Witness for C4: with maxWait 0 and a backend that keeps reporting
PROCESSING, the run times out; the theorem gives the None result, released
temporary file and absent delete request. -/
theorem c4_timeout_behaviour_witness :
    (none : Option RemoteFile) = none ∧ true = true ∧ false = false :=
  c4_timeout_behaviour (some "v") (.ok ⟨"files/v", .PROCESSING⟩)
    (fun _ => .ok .PROCESSING) 5 0 2
    ⟨none, true, true, 1, false, some .timeout⟩ rfl rfl

/-- C7: on every exit path of upload_video_to_gemini on which the temporary
local copy of the payload was created — success, remote-reported failure,
transport error and timeout — it is unlinked before the function returns. -/
theorem c7_temp_file_released (uploadedFile : Option String)
    (uploadStep : Except String RemoteFile)
    (trace : Nat → Except String FileState) (interval maxWait fuel : Nat)
    (o : UploadResult)
    (ho : upload_video_to_gemini uploadedFile uploadStep trace interval maxWait fuel = some o)
    (hc : o.tmpCreated = true) :
    o.tmpReleased = true := by
  unfold upload_video_to_gemini at ho
  split at ho
  · cases Option.some.inj ho; simp at hc
  · split at ho
    · cases Option.some.inj ho; rfl
    · split at ho
      · exact Option.noConfusion ho
      · cases Option.some.inj ho; rfl
      · cases Option.some.inj ho; rfl
      · split at ho
        · cases Option.some.inj ho; rfl
        · cases Option.some.inj ho; rfl

/-- Witness for C7: a concrete remote-failure run creates the temporary file
and the theorem yields that it is released. -/
theorem c7_temp_file_released_witness : true = true :=
  c7_temp_file_released (some "v") (.ok ⟨"files/v", .FAILED⟩)
    (fun _ => .ok .FAILED) 5 300 2
    ⟨none, true, true, 0, false, some .remoteFailed⟩ rfl rfl

/-- C2 counterexample: get_gemini_response on a non-None asset whose last
reported state is PROCESSING (not Ready) issues the network call and returns
the generated text; there is no NotReadyError anywhere in the code. -/
theorem c2_processing_query_counterexample :
    get_gemini_response (some ⟨"files/v", .PROCESSING⟩) "what is shown"
      (.ok ⟨["generated answer"]⟩) = ⟨"generated answer", true⟩ := by
  decide

/-- C2 amended: the only guard of get_gemini_response is presence of the
asset: on a None asset it returns the fixed please-upload message without the
network call, and on any non-None asset — whatever its state — the network
call is issued; no NotReadyError exists. -/
theorem c2_amended_presence_guard_only (p : String)
    (b : Except String GenResponse) (f : RemoteFile) :
    (get_gemini_response none p b).networkCalled = false ∧
    (get_gemini_response none p b).text = noVideoMsg ∧
    (get_gemini_response (some f) p b).networkCalled = true := by
  refine ⟨rfl, rfl, ?_⟩
  cases b with
  | error e => rfl
  | ok resp =>
    cases resp with
    | mk cands =>
      cases cands with
      | nil => rfl
      | cons a t => rfl

/-- C3 counterexample: a transport failure inside the generation call is
returned as the fixed sentinel string, identical to the result of a normal
successful generation whose text happens to equal that sentinel — the
failure is swallowed into a normal-looking string result that the caller
cannot distinguish from success. -/
theorem c3_error_indistinguishable_counterexample :
    get_gemini_response (some ⟨"files/v", .ACTIVE⟩) "describe" (.error "network failure")
      = get_gemini_response (some ⟨"files/v", .ACTIVE⟩) "describe" (.ok ⟨[genErrorMsg]⟩) := by
  decide

/-- C3 amended: every failure is surfaced, but only as a sentinel value, not
as a mutually distinguishable error: upload-phase failures (transport,
remote-reported failure, timeout) all surface as a None result — a run that
created the temporary file returns a remote file exactly when no error path
fired; query-phase failures return the fixed error string in the same string
channel as generated text; and a rejected remote deletion is reported as a
warning without altering the clearing of the local handle. -/
theorem c3_amended_error_surfacing (uploadedFile : Option String)
    (uploadStep : Except String RemoteFile)
    (trace : Nat → Except String FileState) (interval maxWait fuel : Nat)
    (o : UploadResult) (f g : RemoteFile) (p e d : String) (s : Session)
    (ho : upload_video_to_gemini uploadedFile uploadStep trace interval maxWait fuel = some o)
    (hc : o.tmpCreated = true)
    (hs : s.uploadedVideoFileObj = some g) :
    (o.errorKind.isSome ↔ o.result = none) ∧
    get_gemini_response (some f) p (.error e) = ⟨genErrorMsg, true⟩ ∧
    ((clearChatAndRemoveVideo s (.ok ⟨g.name, .ACTIVE⟩) (.error d)).warned = true ∧
     (clearChatAndRemoveVideo s (.ok ⟨g.name, .ACTIVE⟩) (.error d)).session.uploadedVideoFileObj
       = none) := by
  refine ⟨?_, rfl, ?_⟩
  · unfold upload_video_to_gemini at ho
    split at ho
    · cases Option.some.inj ho; simp at hc
    · split at ho
      · cases Option.some.inj ho; simp
      · split at ho
        · exact Option.noConfusion ho
        · cases Option.some.inj ho; simp
        · cases Option.some.inj ho; simp
        · split at ho
          · cases Option.some.inj ho; simp
          · cases Option.some.inj ho; simp
  · constructor
    · unfold clearChatAndRemoveVideo
      rw [hs]
      rfl
    · unfold clearChatAndRemoveVideo
      rw [hs]
      rfl

/-- Witness for the amended C3: a run whose upload call raises, a query
whose generation call raises, and a release whose deletion is rejected. -/
theorem c3_amended_error_surfacing_witness :
    ((UploadResult.mk none true true 0 false (some .exception)).errorKind.isSome ↔
      (UploadResult.mk none true true 0 false (some .exception)).result = none) ∧
    get_gemini_response (some ⟨"files/v", .ACTIVE⟩) "what is shown" (.error "boom")
      = ⟨genErrorMsg, true⟩ ∧
    ((clearChatAndRemoveVideo ⟨["m"], some "v.mp4", some ⟨"files/v", .ACTIVE⟩, 0⟩
        (.ok ⟨"files/v", .ACTIVE⟩) (.error "rejected")).warned = true ∧
     (clearChatAndRemoveVideo ⟨["m"], some "v.mp4", some ⟨"files/v", .ACTIVE⟩, 0⟩
        (.ok ⟨"files/v", .ACTIVE⟩) (.error "rejected")).session.uploadedVideoFileObj
       = none) :=
  c3_amended_error_surfacing (some "v") (.error "upload refused")
    (fun _ => .ok .PROCESSING) 5 300 2 ⟨none, true, true, 0, false, some .exception⟩
    ⟨"files/v", .ACTIVE⟩ ⟨"files/v", .ACTIVE⟩ "what is shown" "boom" "rejected"
    ⟨["m"], some "v.mp4", some ⟨"files/v", .ACTIVE⟩, 0⟩ rfl rfl rfl

/-- C6: for a Ready asset and any prompt, when the generation backend
returns a response with no candidates, get_gemini_response returns the fixed
no-answer message — the function is total (no exception reaches the caller),
no generated text is returned, and the message differs from the other two
sentinel strings of the function. -/
theorem c6_no_candidates_distinguishable (f : RemoteFile) (p : String)
    (hready : f.state = .ACTIVE) :
    get_gemini_response (some f) p (.ok ⟨[]⟩) = ⟨noCandidatesMsg, true⟩ ∧
    noCandidatesMsg ≠ genErrorMsg ∧ noCandidatesMsg ≠ noVideoMsg := by
  exact ⟨rfl, by decide, by decide⟩

/-- Witness for C6 at a concrete Ready asset and prompt. -/
theorem c6_no_candidates_distinguishable_witness :
    get_gemini_response (some ⟨"files/v", .ACTIVE⟩) "what is shown" (.ok ⟨[]⟩)
        = ⟨noCandidatesMsg, true⟩ ∧
    noCandidatesMsg ≠ genErrorMsg ∧ noCandidatesMsg ≠ noVideoMsg :=
  c6_no_candidates_distinguishable ⟨"files/v", .ACTIVE⟩ "what is shown" rfl

/-- C5 counterexample: with maxWait 0 and a backend that always reports
PROCESSING, the run does time out, but only after issuing one status poll —
the timeout comparison is strict and the accumulated wait is still 0 at the
first check, so a poll is issued before the timeout is detected, against the
claim that no status poll is issued. -/
theorem c5_immediate_timeout_counterexample :
    Option.map UploadResult.polls
      (upload_video_to_gemini (some "v") (.ok ⟨"files/v", .PROCESSING⟩)
        (fun _ => .ok .PROCESSING) 5 0 2) = some 1 := by
  decide

/-- C5 amended: with maxWait 0 and a backend that never reports Ready, the
poll loop terminates, failing with the timeout error after exactly one
status poll (strict comparison against an accumulated wait that starts at
0 lets one sleep-and-poll round run before the timeout is detected). -/
theorem c5_amended_timeout_after_one_poll (uf nm : String)
    (trace : Nat → Except String FileState)
    (htrace : ∀ i, trace i = .ok .PROCESSING)
    (interval fuel : Nat) (hi : 1 ≤ interval) (hfuel : 2 ≤ fuel) :
    upload_video_to_gemini (some uf) (.ok ⟨nm, .PROCESSING⟩) trace interval 0 fuel
      = some ⟨none, true, true, 1, false, some .timeout⟩ := by
  obtain ⟨k, rfl⟩ : ∃ k, fuel = k + 2 := ⟨fuel - 2, by omega⟩
  have h1 : pollLoop trace interval 0 (k + 2) 0 0 .PROCESSING = some (.timeout 1) := by
    rw [pollLoop, if_pos rfl, if_neg (by omega), htrace 0]
    show pollLoop trace interval 0 (k + 1) (0 + interval) (0 + 1) .PROCESSING
      = some (.timeout 1)
    rw [pollLoop, if_pos rfl, if_pos (by omega)]
  simp only [upload_video_to_gemini]
  rw [h1]

/-- Witness for the amended C5 at interval 5 and fuel 2. -/
theorem c5_amended_timeout_after_one_poll_witness :
    upload_video_to_gemini (some "v") (.ok ⟨"files/v", .PROCESSING⟩)
      (fun _ => .ok .PROCESSING) 5 0 2
      = some ⟨none, true, true, 1, false, some .timeout⟩ :=
  c5_amended_timeout_after_one_poll "v" "files/v" (fun _ => .ok .PROCESSING)
    (fun _ => rfl) 5 2 (by omega) (by omega)

/-- The Clear Chat & Remove Video handler always produces the same session:
chat cleared, file name and file handle set to None, upload key bumped. -/
theorem clearChat_session_eq (s : Session) (g : Except String RemoteFile)
    (d : Except String Unit) :
    (clearChatAndRemoveVideo s g d).session = ⟨[], none, none, s.uploadKey + 1⟩ := by
  unfold clearChatAndRemoveVideo
  split
  · rfl
  · split
    · rfl
    · split
      · split <;> rfl
      · rfl

/-- Running the Clear Chat & Remove Video handler on a session that holds no
file object touches no backend call: it only resets the local fields. -/
theorem clearChat_of_none (s : Session) (g : Except String RemoteFile)
    (d : Except String Unit) (h : s.uploadedVideoFileObj = none) :
    clearChatAndRemoveVideo s g d
      = ⟨⟨[], none, none, s.uploadKey + 1⟩, false, false⟩ := by
  unfold clearChatAndRemoveVideo
  rw [h]

/-- C8: release is idempotent — after one run of the Clear Chat & Remove
Video handler the file handle is None, and a second run (with any backend
responses) leaves the handle, chat and file name exactly as the first run
left them, issues no delete request and emits no warning (and, the handler
catching every exception, never raises); moreover a deletion rejected by the
service is reported as a warning and still leaves the local handle
cleared. -/
theorem c8_release_idempotent (s : Session) (f : RemoteFile)
    (g1 g2 : Except String RemoteFile) (d1 d2 : Except String Unit)
    (nm e : String)
    (hs : s.uploadedVideoFileObj = some f) :
    (clearChatAndRemoveVideo s g1 d1).session.uploadedVideoFileObj = none ∧
    (clearChatAndRemoveVideo (clearChatAndRemoveVideo s g1 d1).session g2 d2).session.uploadedVideoFileObj
      = (clearChatAndRemoveVideo s g1 d1).session.uploadedVideoFileObj ∧
    (clearChatAndRemoveVideo (clearChatAndRemoveVideo s g1 d1).session g2 d2).session.messages
      = (clearChatAndRemoveVideo s g1 d1).session.messages ∧
    (clearChatAndRemoveVideo (clearChatAndRemoveVideo s g1 d1).session g2 d2).session.uploadedFileName
      = (clearChatAndRemoveVideo s g1 d1).session.uploadedFileName ∧
    (clearChatAndRemoveVideo (clearChatAndRemoveVideo s g1 d1).session g2 d2).deleteIssued = false ∧
    (clearChatAndRemoveVideo (clearChatAndRemoveVideo s g1 d1).session g2 d2).warned = false ∧
    ((clearChatAndRemoveVideo s (.ok ⟨nm, .ACTIVE⟩) (.error e)).warned = true ∧
     (clearChatAndRemoveVideo s (.ok ⟨nm, .ACTIVE⟩) (.error e)).session.uploadedVideoFileObj
       = none) := by
  have h1 := clearChat_session_eq s g1 d1
  have hnone : (clearChatAndRemoveVideo s g1 d1).session.uploadedVideoFileObj = none := by
    rw [h1]
  have h2 := clearChat_of_none (clearChatAndRemoveVideo s g1 d1).session g2 d2 hnone
  refine ⟨hnone, ?_, ?_, ?_, ?_, ?_, ?_, ?_⟩
  · rw [h2, h1]
  · rw [h2, h1]
  · rw [h2, h1]
  · rw [h2]
  · rw [h2]
  · unfold clearChatAndRemoveVideo
    rw [hs]
    rfl
  · unfold clearChatAndRemoveVideo
    rw [hs]
    rfl

/-- Witness for C8 at a concrete session holding an ACTIVE file. -/
theorem c8_release_idempotent_witness :
    (clearChatAndRemoveVideo ⟨["hello"], some "v.mp4", some ⟨"files/v", .ACTIVE⟩, 0⟩
        (.ok ⟨"files/v", .ACTIVE⟩) (.ok ())).session.uploadedVideoFileObj = none ∧
    (clearChatAndRemoveVideo (clearChatAndRemoveVideo ⟨["hello"], some "v.mp4", some ⟨"files/v", .ACTIVE⟩, 0⟩
        (.ok ⟨"files/v", .ACTIVE⟩) (.ok ())).session (.ok ⟨"files/v", .ACTIVE⟩) (.ok ())).session.uploadedVideoFileObj
      = (clearChatAndRemoveVideo ⟨["hello"], some "v.mp4", some ⟨"files/v", .ACTIVE⟩, 0⟩
        (.ok ⟨"files/v", .ACTIVE⟩) (.ok ())).session.uploadedVideoFileObj ∧
    (clearChatAndRemoveVideo (clearChatAndRemoveVideo ⟨["hello"], some "v.mp4", some ⟨"files/v", .ACTIVE⟩, 0⟩
        (.ok ⟨"files/v", .ACTIVE⟩) (.ok ())).session (.ok ⟨"files/v", .ACTIVE⟩) (.ok ())).session.messages
      = (clearChatAndRemoveVideo ⟨["hello"], some "v.mp4", some ⟨"files/v", .ACTIVE⟩, 0⟩
        (.ok ⟨"files/v", .ACTIVE⟩) (.ok ())).session.messages ∧
    (clearChatAndRemoveVideo (clearChatAndRemoveVideo ⟨["hello"], some "v.mp4", some ⟨"files/v", .ACTIVE⟩, 0⟩
        (.ok ⟨"files/v", .ACTIVE⟩) (.ok ())).session (.ok ⟨"files/v", .ACTIVE⟩) (.ok ())).session.uploadedFileName
      = (clearChatAndRemoveVideo ⟨["hello"], some "v.mp4", some ⟨"files/v", .ACTIVE⟩, 0⟩
        (.ok ⟨"files/v", .ACTIVE⟩) (.ok ())).session.uploadedFileName ∧
    (clearChatAndRemoveVideo (clearChatAndRemoveVideo ⟨["hello"], some "v.mp4", some ⟨"files/v", .ACTIVE⟩, 0⟩
        (.ok ⟨"files/v", .ACTIVE⟩) (.ok ())).session (.ok ⟨"files/v", .ACTIVE⟩) (.ok ())).deleteIssued = false ∧
    (clearChatAndRemoveVideo (clearChatAndRemoveVideo ⟨["hello"], some "v.mp4", some ⟨"files/v", .ACTIVE⟩, 0⟩
        (.ok ⟨"files/v", .ACTIVE⟩) (.ok ())).session (.ok ⟨"files/v", .ACTIVE⟩) (.ok ())).warned = false ∧
    ((clearChatAndRemoveVideo ⟨["hello"], some "v.mp4", some ⟨"files/v", .ACTIVE⟩, 0⟩
        (.ok ⟨"files/v", .ACTIVE⟩) (.error "expired")).warned = true ∧
     (clearChatAndRemoveVideo ⟨["hello"], some "v.mp4", some ⟨"files/v", .ACTIVE⟩, 0⟩
        (.ok ⟨"files/v", .ACTIVE⟩) (.error "expired")).session.uploadedVideoFileObj = none) :=
  c8_release_idempotent ⟨["hello"], some "v.mp4", some ⟨"files/v", .ACTIVE⟩, 0⟩
    ⟨"files/v", .ACTIVE⟩ (.ok ⟨"files/v", .ACTIVE⟩) (.ok ⟨"files/v", .ACTIVE⟩)
    (.ok ()) (.ok ()) "files/v" "expired" rfl

/-- If the first i status polls report PROCESSING and poll i reports FAILED,
and the accumulated wait stays within maxWait until then, the loop stops at
the FAILED report: exactly i + 1 polls are issued and the loop exits with
state FAILED. -/
theorem pollLoop_first_failed (trace : Nat → Except String FileState)
    (interval maxWait : Nat) :
    ∀ (i fuel elapsed polls : Nat),
      (∀ j, j < i → trace (polls + j) = .ok .PROCESSING) →
      trace (polls + i) = .ok .FAILED →
      elapsed + i * interval ≤ maxWait →
      i + 2 ≤ fuel →
      pollLoop trace interval maxWait fuel elapsed polls .PROCESSING
        = some (.done .FAILED (polls + i + 1)) := by
  intro i
  induction i with
  | zero =>
    intro fuel elapsed polls hpre hfail hel hfuel
    obtain ⟨k, rfl⟩ : ∃ k, fuel = k + 2 := ⟨fuel - 2, by omega⟩
    have hfail' : trace polls = .ok .FAILED := by simpa using hfail
    rw [pollLoop, if_pos rfl, if_neg (by omega), hfail']
    show pollLoop trace interval maxWait (k + 1) (elapsed + interval) (polls + 1) .FAILED
      = some (.done .FAILED (polls + 0 + 1))
    rw [pollLoop, if_neg (by decide)]
  | succ n ih =>
    intro fuel elapsed polls hpre hfail hel hfuel
    obtain ⟨k, rfl⟩ : ∃ k, fuel = k + 3 := ⟨fuel - 3, by omega⟩
    have helan : elapsed ≤ maxWait := le_trans (Nat.le_add_right _ _) hel
    have h0 : trace polls = .ok .PROCESSING := by
      simpa using hpre 0 (Nat.succ_pos n)
    rw [pollLoop, if_pos rfl, if_neg (by omega), h0]
    show pollLoop trace interval maxWait (k + 2) (elapsed + interval) (polls + 1) .PROCESSING
      = some (.done .FAILED (polls + (n + 1) + 1))
    have hpre' : ∀ j, j < n → trace (polls + 1 + j) = .ok .PROCESSING := by
      intro j hj
      rw [show polls + 1 + j = polls + (j + 1) by omega]
      exact hpre (j + 1) (by omega)
    have hfail' : trace (polls + 1 + n) = .ok .FAILED := by
      rw [show polls + 1 + n = polls + (n + 1) by omega]
      exact hfail
    have hel' : elapsed + interval + n * interval ≤ maxWait := by
      rw [Nat.succ_mul] at hel
      linarith
    have := ih (k + 2) (elapsed + interval) (polls + 1) hpre' hfail' hel' (by omega)
    rw [show polls + (n + 1) + 1 = polls + 1 + n + 1 by omega]
    exact this

/-- C9: whenever the backend reports PROCESSING up to poll i and FAILED at
poll i (before the timeout budget is exhausted), upload_video_to_gemini
fails with the remote-processing error after exactly i + 1 polls — no poll
is issued after the FAILED report; and in the scenario where the upload
response reports PROCESSING and the backend then reports PROCESSING once
more and then ACTIVE, the run with pollInterval 1 and maxWait 10 returns a
Ready (ACTIVE) file after exactly 2 polls beyond submission. -/
theorem c9_failed_no_retry_and_two_poll_scenario
    (trace : Nat → Except String FileState) (uf nm : String)
    (i interval maxWait fuel : Nat)
    (hpre : ∀ j, j < i → trace j = .ok .PROCESSING)
    (hfail : trace i = .ok .FAILED)
    (hel : i * interval ≤ maxWait)
    (hfuel : i + 2 ≤ fuel) :
    upload_video_to_gemini (some uf) (.ok ⟨nm, .PROCESSING⟩) trace interval maxWait fuel
      = some ⟨none, true, true, i + 1, false, some .remoteFailed⟩ ∧
    upload_video_to_gemini (some "v") (.ok ⟨"files/v", .PROCESSING⟩)
      (fun k => if k = 0 then .ok .PROCESSING else .ok .ACTIVE) 1 10 12
      = some ⟨some ⟨"files/v", .ACTIVE⟩, true, true, 2, false, none⟩ := by
  constructor
  · have h1 : pollLoop trace interval maxWait fuel 0 0 .PROCESSING
        = some (.done .FAILED (i + 1)) := by
      have := pollLoop_first_failed trace interval maxWait i fuel 0 0
        (fun j hj => by simpa using hpre j hj) (by simpa using hfail)
        (by simpa using hel) hfuel
      simpa using this
    simp only [upload_video_to_gemini]
    rw [h1]
    rfl
  · decide

/-- Witness for C9: the backend reports FAILED on the very first poll; the
theorem yields failure after exactly one poll and the two-poll scenario. -/
theorem c9_failed_no_retry_and_two_poll_scenario_witness :
    upload_video_to_gemini (some "v") (.ok ⟨"files/v", .PROCESSING⟩)
      (fun _ => .ok .FAILED) 5 300 2
      = some ⟨none, true, true, 1, false, some .remoteFailed⟩ ∧
    upload_video_to_gemini (some "v") (.ok ⟨"files/v", .PROCESSING⟩)
      (fun k => if k = 0 then .ok .PROCESSING else .ok .ACTIVE) 1 10 12
      = some ⟨some ⟨"files/v", .ACTIVE⟩, true, true, 2, false, none⟩ := by
  have h := c9_failed_no_retry_and_two_poll_scenario (fun _ => .ok .FAILED) "v" "files/v"
    0 5 300 2 (fun j hj => absurd hj (Nat.not_lt_zero j)) rfl (by omega) (by omega)
  simpa using h

/-- C10: the release handler requests the remote deletion only when the
service currently reports the file as ACTIVE; for any other reported state
the deletion is skipped with a warning, and when the state query itself
fails the handler warns and skips as well — in every case the local handle
is cleared, so a FAILED or expired remote resource is never actually
deleted by release. -/
theorem c10_delete_only_when_active (s : Session) (f : RemoteFile)
    (nm e : String) (st : FileState) (d : Except String Unit)
    (hs : s.uploadedVideoFileObj = some f) :
    ((clearChatAndRemoveVideo s (.ok ⟨nm, st⟩) d).deleteIssued = true ↔ st = .ACTIVE) ∧
    (st ≠ .ACTIVE → (clearChatAndRemoveVideo s (.ok ⟨nm, st⟩) d).warned = true) ∧
    (clearChatAndRemoveVideo s (.ok ⟨nm, st⟩) d).session.uploadedVideoFileObj = none ∧
    (clearChatAndRemoveVideo s (.error e) d).deleteIssued = false ∧
    (clearChatAndRemoveVideo s (.error e) d).warned = true ∧
    (clearChatAndRemoveVideo s (.error e) d).session.uploadedVideoFileObj = none := by
  unfold clearChatAndRemoveVideo
  rw [hs]
  refine ⟨?_, ?_, ?_, rfl, rfl, rfl⟩
  · cases st with
    | PROCESSING => cases d <;> simp
    | ACTIVE => cases d <;> simp
    | FAILED => cases d <;> simp
  · cases st with
    | PROCESSING => intro _; cases d <;> rfl
    | ACTIVE => intro h; exact absurd rfl h
    | FAILED => intro _; cases d <;> rfl
  · cases st with
    | PROCESSING => cases d <;> rfl
    | ACTIVE => cases d <;> rfl
    | FAILED => cases d <;> rfl

/-- Witness for C10 at a session holding a file whose remote state is now
FAILED: no delete is issued, a warning is emitted, the handle is cleared. -/
theorem c10_delete_only_when_active_witness :
    ((clearChatAndRemoveVideo ⟨[], some "v.mp4", some ⟨"files/v", .ACTIVE⟩, 3⟩
        (.ok ⟨"files/v", .FAILED⟩) (.ok ())).deleteIssued = true
      ↔ FileState.FAILED = .ACTIVE) ∧
    (FileState.FAILED ≠ .ACTIVE →
      (clearChatAndRemoveVideo ⟨[], some "v.mp4", some ⟨"files/v", .ACTIVE⟩, 3⟩
        (.ok ⟨"files/v", .FAILED⟩) (.ok ())).warned = true) ∧
    (clearChatAndRemoveVideo ⟨[], some "v.mp4", some ⟨"files/v", .ACTIVE⟩, 3⟩
        (.ok ⟨"files/v", .FAILED⟩) (.ok ())).session.uploadedVideoFileObj = none ∧
    (clearChatAndRemoveVideo ⟨[], some "v.mp4", some ⟨"files/v", .ACTIVE⟩, 3⟩
        (.error "expired") (.ok ())).deleteIssued = false ∧
    (clearChatAndRemoveVideo ⟨[], some "v.mp4", some ⟨"files/v", .ACTIVE⟩, 3⟩
        (.error "expired") (.ok ())).warned = true ∧
    (clearChatAndRemoveVideo ⟨[], some "v.mp4", some ⟨"files/v", .ACTIVE⟩, 3⟩
        (.error "expired") (.ok ())).session.uploadedVideoFileObj = none :=
  c10_delete_only_when_active ⟨[], some "v.mp4", some ⟨"files/v", .ACTIVE⟩, 3⟩
    ⟨"files/v", .ACTIVE⟩ "files/v" "expired" .FAILED (.ok ()) rfl

end GeminiModel
